import Mathlib

/-!
Shallow embedding of `eFFORT/BToD.py` (B → D semileptonic form-factor models)
over the real numbers, together with spec-modelled definitions for the
`eFFORT.utility` helpers that the module imports.

Python floats are modelled by `ℝ`; Python lists of floats by `List ℝ`;
Python's `None`-or-float values by `Option ℝ`; a call that may raise by
`Except String`.  `x ** 0.5` on a nonnegative base is `Real.sqrt x`;
`x ** (3/2)` is real exponentiation `x ^ ((3 : ℝ)/2)`; `x ** -5` (an integer
exponent) is `x ^ (-5 : ℤ)`.
-/

noncomputable section

/-- Modelled from the spec: the physical-constants provider `PDG`
(`eFFORT.utility`, not present under `src/`) exposes the Fermi coupling
constant `G_F` as a fixed physical constant (§6 "Physical constants
provider"). The exact numeric value is irrelevant to every claim; the PDG
value is used. -/
def PDG_G_F : ℝ := 1.1663787e-5

/-- Modelled from the spec: `z_var` (`eFFORT.utility`, not present under
`src/`) is the "conformal map (standard BGL/CLN substitution) from recoil w
to expansion variable z" (§6), the standard substitution
z = (√(w+1) − √2) / (√(w+1) + √2), which maps w = 1 to z = 0 (§4.2). -/
def z_var (w : ℝ) : ℝ :=
  (Real.sqrt (w + 1) - Real.sqrt 2) / (Real.sqrt (w + 1) + Real.sqrt 2)

/-- Modelled from the spec: `BGL_form_factor` (`seriesSum` of §6,
`eFFORT.utility`, not present under `src/`): given z, a Blaschke function, an
outer function and a coefficient list, it computes the weighted sum
Σ coefficients[i] · zⁱ divided by blaschkeFn(z) · outerFn(z) (§6; the
division convention is fixed by §8's round-trip property: a single
coefficient [c] with unit Blaschke/outer functions reduces to c). -/
def BGL_form_factor (z : ℝ) (p : ℝ → ℝ) (phi : ℝ → ℝ) (a : List ℝ) : ℝ :=
  1 / (p z * phi z) * ((a.enum.map (fun na => na.2 * z ^ na.1)).sum)

/-- Fields of the base class `BToD` (`src/eFFORT/BToD.py`), as set by
`BToD.__init__`: the five constructor-derived constants plus the
precomputed mass ratio `r`. -/
structure BToD where
  m_B : ℝ
  m_D : ℝ
  V_cb : ℝ
  eta_EW : ℝ
  G_F : ℝ
  r : ℝ

/-- Constructor `BToD.__init__(m_B, m_D, V_cb, eta_EW=1.0066)`: stores the four
arguments, sets `G_F` from `PDG.G_F` and precomputes `r = m_D / m_B`. -/
def BToD.init (m_B m_D V_cb : ℝ) (eta_EW : ℝ) : BToD :=
  { m_B := m_B
    m_D := m_D
    V_cb := V_cb
    eta_EW := eta_EW
    G_F := PDG_G_F
    r := m_D / m_B }

/-- Method `BToD.G`: the method is decorated `@abc.abstractmethod`, but `BToD` is a
plain class (it does not use `abc.ABCMeta` / inherit `abc.ABC`), so the
decorator has no enforcement effect: the call executes the body `pass` and
returns Python `None`.  `Except.ok none` records "the call completes
normally, returning `None`" (an `Except.error` would model a raised
exception). -/
def BToD.G (_self : BToD) (_w : ℝ) : Except String (Option ℝ) :=
  Except.ok none

/-- Method `BToD.dGamma_dw(w)` (`src/eFFORT/BToD.py` lines 32–38).  The call
`self.G(w)` dispatches dynamically to the subclass override; the override is
passed explicitly as `Gfn`. -/
def BToD.dGamma_dw (self : BToD) (Gfn : ℝ → ℝ) (w : ℝ) : ℝ :=
  self.G_F ^ 2 * self.m_D ^ 3 / 48 / Real.pi ^ 3 * (self.m_B + self.m_D) ^ 2
    * (w ^ 2 - 1) ^ ((3 : ℝ) / 2) * self.eta_EW ^ 2 * self.V_cb ^ 2 * Gfn w

/-- Fields of `BToDCLN`: the inherited base fields plus the CLN parameters
`G_1` and `rho2`. -/
structure BToDCLN where
  toBToD : BToD
  G_1 : ℝ
  rho2 : ℝ

/-- Constructor `BToDCLN.__init__(m_B, m_Dstar, V_cb, eta_EW=1.0066, cln_g1=None,
cln_rho2=None)`: calls the base constructor, then
`self.G_1 = 1.074 if cln_g1 is None else cln_g1` and
`self.rho2 = 1.15 if cln_rho2 is None else cln_rho2`. -/
def BToDCLN.init (m_B m_Dstar V_cb : ℝ) (eta_EW : ℝ)
    (cln_g1 : Option ℝ) (cln_rho2 : Option ℝ) : BToDCLN :=
  { toBToD := BToD.init m_B m_Dstar V_cb eta_EW
    G_1 := match cln_g1 with
      | none => 1.074
      | some g => g
    rho2 := match cln_rho2 with
      | none => 1.15
      | some rh => rh }

/-- Method `BToDCLN.G(w)` (`src/eFFORT/BToD.py` lines 50–58): squared CLN form
factor, `(G_1 · (1 − 8·rho2·z + (51·rho2 − 10)·z² − (252·rho2 − 84)·z³))²`
with `z = z_var(w)`. -/
def BToDCLN.G (self : BToDCLN) (w : ℝ) : ℝ :=
  let rho2 := self.rho2
  let z := z_var w
  (self.G_1 * (1 - 8 * rho2 * z + (51 * rho2 - 10) * z ^ 2
      - (252 * rho2 - 84) * z ^ 3)) ^ 2

/-- Method `dGamma_dw` as invoked on a `BToDCLN` instance: the inherited base
method with `self.G` as the dispatched override. -/
def BToDCLN.dGamma_dw (self : BToDCLN) (w : ℝ) : ℝ :=
  self.toBToD.dGamma_dw self.G w

/-- Fields of `BToDBGL`: the inherited base fields plus the BGL expansion
coefficients. -/
structure BToDBGL where
  toBToD : BToD
  expansion_coefficients : List ℝ

/-- Constructor `BToDBGL.__init__(m_B, m_Dstar, V_cb, eta_EW=1.0066,
bgl_fplus_coefficients=None)`: calls the base constructor, then
`self.expansion_coefficients = [] if bgl_fplus_coefficients is None else
bgl_fplus_coefficients`. -/
def BToDBGL.init (m_B m_Dstar V_cb : ℝ) (eta_EW : ℝ)
    (bgl_fplus_coefficients : Option (List ℝ)) : BToDBGL :=
  { toBToD := BToD.init m_B m_Dstar V_cb eta_EW
    expansion_coefficients := match bgl_fplus_coefficients with
      | none => []
      | some cs => cs }

/-- Method `BToDBGL.phi_plus(z)` (`src/eFFORT/BToD.py` lines 69–76): outer
function for the f+ form factor,
`1.1213 · (1+z)² · (1−z)^(1/2) · ((1+r)(1−z) + 2·√r·(1+z))^(−5)`
with `r` the base model's mass ratio. -/
def BToDBGL.phi_plus (self : BToDBGL) (z : ℝ) : ℝ :=
  let r := self.toBToD.r
  1.1213 * (1 + z) ^ 2 * Real.sqrt (1 - z)
    * ((1 + r) * (1 - z) + 2 * Real.sqrt r * (1 + z)) ^ (-5 : ℤ)

/-- Method `BToDBGL.G(w)` (`src/eFFORT/BToD.py` lines 78–85): squared BGL form
factor, `4·r/(1+r)² · BGL_form_factor(z_var(w), λx.1, phi_plus, coeffs)²`. -/
def BToDBGL.G (self : BToDBGL) (w : ℝ) : ℝ :=
  4 * self.toBToD.r / (1 + self.toBToD.r) ^ 2
    * BGL_form_factor (z_var w) (fun _ => 1) self.phi_plus
        self.expansion_coefficients ^ 2

/-- Method `BToDBGL.fplus(w)` (`src/eFFORT/BToD.py` lines 87–89):
`BGL_form_factor(z_var(w), λx.1, phi_plus, coeffs)²`, i.e. the same series
square without the `4r/(1+r)²` prefactor. -/
def BToDBGL.fplus (self : BToDBGL) (w : ℝ) : ℝ :=
  BGL_form_factor (z_var w) (fun _ => 1) self.phi_plus
    self.expansion_coefficients ^ 2

/-- Method `dGamma_dw` as invoked on a `BToDBGL` instance: the inherited base
method with `self.G` as the dispatched override. -/
def BToDBGL.dGamma_dw (self : BToDBGL) (w : ℝ) : ℝ :=
  self.toBToD.dGamma_dw self.G w

/-! Vectorized (numpy) evaluation.

`dGamma_dw` is also called with a numpy array for `w` (the plotting entry
point passes `np.linspace(...)`).  A 1-d float array is modelled as
`List ℝ`, and each numpy broadcast operation appearing in the body of
`dGamma_dw` is modelled elementwise, in the association order of the Python
expression. -/

/-- numpy `xs ** 2` on an array: elementwise square. -/
def npSq (xs : List ℝ) : List ℝ := xs.map (fun x => x ^ 2)

/-- numpy `xs - c` (array minus broadcast scalar). -/
def npSubScalar (xs : List ℝ) (c : ℝ) : List ℝ := xs.map (fun x => x - c)

/-- numpy `xs ** e` with a real exponent: elementwise real power. -/
def npPowScalar (xs : List ℝ) (e : ℝ) : List ℝ := xs.map (fun x => x ^ e)

/-- numpy `c * xs` (broadcast scalar times array). -/
def npScalarMul (c : ℝ) (xs : List ℝ) : List ℝ := xs.map (fun x => c * x)

/-- numpy `xs * c` (array times broadcast scalar). -/
def npMulScalar (xs : List ℝ) (c : ℝ) : List ℝ := xs.map (fun x => x * c)

/-- numpy `xs * ys` (elementwise product of two arrays of equal length). -/
def npMul (xs ys : List ℝ) : List ℝ := List.zipWith (fun a b => a * b) xs ys

/-- Function `BToD.dGamma_dw` evaluated on an array `ws`, following the Python
expression tree with numpy broadcasting: the leading scalar factor
`G_F² · m_D³ / 48 / π³ · (m_B + m_D)²` broadcasts over the elementwise
`(ws² − 1)^(3/2)`, the scalars `eta_EW²` and `V_cb²` broadcast next, and the
final factor is the elementwise array `G(ws)` produced by the (vectorized)
form-factor override `Gfn`. -/
def BToD.dGamma_dw_vec (self : BToD) (Gfn : ℝ → ℝ) (ws : List ℝ) : List ℝ :=
  npMul
    (npMulScalar
      (npMulScalar
        (npScalarMul
          (self.G_F ^ 2 * self.m_D ^ 3 / 48 / Real.pi ^ 3
            * (self.m_B + self.m_D) ^ 2)
          (npPowScalar (npSubScalar (npSq ws) 1) ((3 : ℝ) / 2)))
        (self.eta_EW ^ 2))
      (self.V_cb ^ 2))
    (ws.map Gfn)

/-! State-passing view of the method calls.

For the frame property, each method call is translated with the object's
state passed explicitly: a call maps the pre-call object to the returned
value together with the post-call object.  Every method body in
`src/eFFORT/BToD.py` only reads `self` (no statement assigns to any
attribute of `self` outside `__init__`), so the translation returns the
input object as the post-call state. -/

/-- State-passing view of `BToDCLN.G`. -/
def BToDCLN.G_call (self : BToDCLN) (w : ℝ) : ℝ × BToDCLN :=
  (self.G w, self)

/-- State-passing view of `dGamma_dw` invoked on a `BToDCLN` instance. -/
def BToDCLN.dGamma_dw_call (self : BToDCLN) (w : ℝ) : ℝ × BToDCLN :=
  (self.dGamma_dw w, self)

/-- State-passing view of `BToDBGL.G`. -/
def BToDBGL.G_call (self : BToDBGL) (w : ℝ) : ℝ × BToDBGL :=
  (self.G w, self)

/-- State-passing view of `BToDBGL.phi_plus`. -/
def BToDBGL.phi_plus_call (self : BToDBGL) (z : ℝ) : ℝ × BToDBGL :=
  (self.phi_plus z, self)

/-- State-passing view of `BToDBGL.fplus`. -/
def BToDBGL.fplus_call (self : BToDBGL) (w : ℝ) : ℝ × BToDBGL :=
  (self.fplus w, self)

/-- State-passing view of `dGamma_dw` invoked on a `BToDBGL` instance. -/
def BToDBGL.dGamma_dw_call (self : BToDBGL) (w : ℝ) : ℝ × BToDBGL :=
  (self.dGamma_dw w, self)

/-! Theorems settling the claims. -/

/-- Helper: the spec-modelled kinematic transform maps w = 1 to z = 0. -/
theorem z_var_at_one : z_var 1 = 0 := by
  unfold z_var
  norm_num

/-- A concrete BGL instance with `m_B = m_D = 1`, so that the stored mass
ratio is `r = 1/1 = 1` and `phi_plus` evaluates in closed form. -/
def bglUnitRatio : BToDBGL := BToDBGL.init 1 1 0.04 1.0066 none

/-- Claim C1, counterexample: for the BGL model with mass ratio r = 1,
`phi_plus(0)` is `1.1213 · 4⁻⁵`, not `1.1213` — the claimed r-independent
value `1.1213` at z = 0 is false. -/
theorem phi_plus_at_zero_ne_constant : ¬ (bglUnitRatio.phi_plus 0 = 1.1213) := by
  unfold bglUnitRatio BToDBGL.phi_plus BToDBGL.init BToD.init
  norm_num

/-- Claim C1, amended: for every BGL model whose mass ratio `r` is
nonnegative, evaluating the outer function at z = 0 gives
`phi_plus(0) = 1.1213 / (1 + √r)^10`; this depends on `r` and equals
`1.1213` only in the degenerate case r = 0, not for every mass ratio. -/
theorem phi_plus_at_zero_closed_form (self : BToDBGL) (h : 0 ≤ self.toBToD.r) :
    self.phi_plus 0 = 1.1213 / (1 + Real.sqrt self.toBToD.r) ^ 10 := by
  simp only [BToDBGL.phi_plus]
  have hs : Real.sqrt self.toBToD.r * Real.sqrt self.toBToD.r = self.toBToD.r :=
    Real.mul_self_sqrt h
  have hbase : (1 + self.toBToD.r) * (1 - 0) + 2 * Real.sqrt self.toBToD.r * (1 + 0)
      = (1 + Real.sqrt self.toBToD.r) ^ 2 := by
    rw [pow_two]
    ring_nf
    nlinarith [hs]
  rw [hbase]
  rw [show ((1 + Real.sqrt self.toBToD.r) ^ 2) ^ (-5 : ℤ)
      = ((1 + Real.sqrt self.toBToD.r) ^ 10)⁻¹ by
    rw [show (-5 : ℤ) = -(5 : ℕ) by norm_num, zpow_neg, zpow_natCast, ← pow_mul]]
  norm_num
  ring

/-- Claim C1, witness for the amended theorem at the concrete instance with
mass ratio r = 1. -/
theorem phi_plus_at_zero_closed_form_witness :
    0 ≤ bglUnitRatio.toBToD.r ∧
      bglUnitRatio.phi_plus 0
        = 1.1213 / (1 + Real.sqrt bglUnitRatio.toBToD.r) ^ 10 :=
  ⟨by norm_num [bglUnitRatio, BToDBGL.init, BToD.init],
   phi_plus_at_zero_closed_form bglUnitRatio
     (by norm_num [bglUnitRatio, BToDBGL.init, BToD.init])⟩

/-- Claim C2: invoking `G` directly on a base `BToD` instance (here the
concrete instance `BToD(5.279, 1.870, 0.0411)` at w = 1) completes normally
and returns the value `None` — it does not raise an abstract-method
violation, because `BToD` is a plain class on which `@abc.abstractmethod`
has no enforcement effect. -/
theorem base_G_call_returns_none :
    (BToD.init 5.279 1.870 0.0411 1.0066).G 1 = Except.ok none := rfl

/-- Claim C3: for every BGL model instance and every recoil value w, the
squared form factor satisfies `G(w) = 4·r/(1+r)² · fplus(w)`, and `fplus(w)`
is exactly the squared series sum with the `4r/(1+r)²` prefactor omitted. -/
theorem bgl_G_eq_prefactor_mul_fplus (self : BToDBGL) (w : ℝ) :
    self.G w = 4 * self.toBToD.r / (1 + self.toBToD.r) ^ 2 * self.fplus w
      ∧ self.fplus w
        = BGL_form_factor (z_var w) (fun _ => 1) self.phi_plus
            self.expansion_coefficients ^ 2 :=
  ⟨rfl, rfl⟩

/-- Claim C4: for every model instance and every recoil value w, the
differential rate equals the closed-form product
`G_F² · m_D³ / (48·π³) · (m_B + m_D)² · (w² − 1)^(3/2) · eta_EW² · V_cb² · G(w)`,
where `G` is the variant's squared form factor (stated for the base method
with an arbitrary dispatched override, and instantiated for the CLN and BGL
variants). -/
theorem dGamma_dw_closed_form :
    (∀ (self : BToD) (Gfn : ℝ → ℝ) (w : ℝ),
      self.dGamma_dw Gfn w
        = self.G_F ^ 2 * self.m_D ^ 3 / (48 * Real.pi ^ 3)
            * (self.m_B + self.m_D) ^ 2 * (w ^ 2 - 1) ^ ((3 : ℝ) / 2)
            * self.eta_EW ^ 2 * self.V_cb ^ 2 * Gfn w)
    ∧ (∀ (cln : BToDCLN) (w : ℝ),
      cln.dGamma_dw w
        = cln.toBToD.G_F ^ 2 * cln.toBToD.m_D ^ 3 / (48 * Real.pi ^ 3)
            * (cln.toBToD.m_B + cln.toBToD.m_D) ^ 2
            * (w ^ 2 - 1) ^ ((3 : ℝ) / 2)
            * cln.toBToD.eta_EW ^ 2 * cln.toBToD.V_cb ^ 2 * cln.G w)
    ∧ (∀ (bgl : BToDBGL) (w : ℝ),
      bgl.dGamma_dw w
        = bgl.toBToD.G_F ^ 2 * bgl.toBToD.m_D ^ 3 / (48 * Real.pi ^ 3)
            * (bgl.toBToD.m_B + bgl.toBToD.m_D) ^ 2
            * (w ^ 2 - 1) ^ ((3 : ℝ) / 2)
            * bgl.toBToD.eta_EW ^ 2 * bgl.toBToD.V_cb ^ 2 * bgl.G w) := by
  refine ⟨?_, ?_, ?_⟩ <;> intros <;>
    first
      | (unfold BToD.dGamma_dw; ring)
      | (unfold BToDCLN.dGamma_dw BToD.dGamma_dw; ring)
      | (unfold BToDBGL.dGamma_dw BToD.dGamma_dw; ring)

/-- Claim C5: the CLN squared form factor is
`(G_1 · (1 − 8·rho2·z + (51·rho2 − 10)·z² − (252·rho2 − 84)·z³))²` with
`z = z_var(w)` for every w, and with the default parameters
`G_1 = 1.074`, `rho2 = 1.15` its value at w = 1 (where z = 0) is `1.074²`. -/
theorem cln_G_closed_form :
    (∀ (self : BToDCLN) (w : ℝ),
      self.G w
        = (self.G_1 * (1 - 8 * self.rho2 * z_var w
            + (51 * self.rho2 - 10) * z_var w ^ 2
            - (252 * self.rho2 - 84) * z_var w ^ 3)) ^ 2)
    ∧ (∀ (m_B m_D V_cb eta_EW : ℝ),
      (BToDCLN.init m_B m_D V_cb eta_EW none none).G 1 = 1.074 ^ 2) := by
  constructor
  · intro self w
    rfl
  · intro m_B m_D V_cb eta_EW
    simp [BToDCLN.init, BToDCLN.G, z_var_at_one]

/-- Claim C6: a BGL model constructed with no coefficient list (the default,
stored as the empty list) — or with an explicitly empty coefficient list —
has squared form factor `G(w) = 0` for every recoil value w. -/
theorem bgl_empty_coefficients_G_zero (m_B m_D V_cb eta_EW w : ℝ) :
    (BToDBGL.init m_B m_D V_cb eta_EW none).G w = 0
      ∧ (BToDBGL.init m_B m_D V_cb eta_EW (some [])).G w = 0 := by
  constructor <;> simp [BToDBGL.init, BToDBGL.G, BGL_form_factor]

/-- Claim C7: at w = 1 exactly, `dGamma_dw(1) = 0` for the base method with
any dispatched squared-form-factor override, and in particular for every
CLN instance and every BGL instance — the `(w² − 1)^(3/2)` factor
vanishes regardless of the form-factor value. -/
theorem dGamma_dw_at_one_eq_zero :
    (∀ (self : BToD) (Gfn : ℝ → ℝ), self.dGamma_dw Gfn 1 = 0)
    ∧ (∀ cln : BToDCLN, cln.dGamma_dw 1 = 0)
    ∧ (∀ bgl : BToDBGL, bgl.dGamma_dw 1 = 0) := by
  refine ⟨?_, ?_, ?_⟩ <;> intros <;>
    first
      | (unfold BToD.dGamma_dw; norm_num)
      | (unfold BToDCLN.dGamma_dw BToD.dGamma_dw; norm_num)
      | (unfold BToDBGL.dGamma_dw BToD.dGamma_dw; norm_num)

/-- Claim C8: for every array of recoil values, the vectorized (numpy,
broadcast-by-broadcast) evaluation of `dGamma_dw` equals the elementwise
application of the scalar formula to each entry, in input order. -/
theorem dGamma_dw_vec_eq_elementwise (self : BToD) (Gfn : ℝ → ℝ)
    (ws : List ℝ) :
    self.dGamma_dw_vec Gfn ws = ws.map (self.dGamma_dw Gfn) := by
  induction ws with
  | nil => rfl
  | cons a t ih =>
    simp only [BToD.dGamma_dw_vec, npMul, npMulScalar, npScalarMul,
      npPowScalar, npSubScalar, npSq, List.map_cons,
      List.zipWith_cons_cons] at ih ⊢
    rw [ih.symm]
    rfl

/-- Claim C9: no evaluation call mutates the object: for every CLN and BGL
instance and all inputs, the state-passing views of `G`, `dGamma_dw`,
`phi_plus` and `fplus` return a post-call object equal to the pre-call
object, so every field set at construction is unchanged. -/
theorem method_calls_do_not_mutate (cln : BToDCLN) (bgl : BToDBGL)
    (w z : ℝ) :
    (cln.G_call w).2 = cln
      ∧ (cln.dGamma_dw_call w).2 = cln
      ∧ (bgl.G_call w).2 = bgl
      ∧ (bgl.phi_plus_call z).2 = bgl
      ∧ (bgl.fplus_call w).2 = bgl
      ∧ (bgl.dGamma_dw_call w).2 = bgl :=
  ⟨rfl, rfl, rfl, rfl, rfl, rfl⟩

/-- Claim C10: passing `None` for an optional parametrization argument
stores the documented default — `G_1 = 1.074`, `rho2 = 1.15` for CLN and
the empty coefficient list for BGL — while passing an explicit value stores
that value; the stored fields are plain numbers/lists, never `None`. -/
theorem constructor_none_stores_defaults (m_B m_D V_cb eta_EW g rh : ℝ)
    (cs : List ℝ) :
    (BToDCLN.init m_B m_D V_cb eta_EW none none).G_1 = 1.074
      ∧ (BToDCLN.init m_B m_D V_cb eta_EW none none).rho2 = 1.15
      ∧ (BToDBGL.init m_B m_D V_cb eta_EW none).expansion_coefficients = []
      ∧ (BToDCLN.init m_B m_D V_cb eta_EW (some g) (some rh)).G_1 = g
      ∧ (BToDCLN.init m_B m_D V_cb eta_EW (some g) (some rh)).rho2 = rh
      ∧ (BToDBGL.init m_B m_D V_cb eta_EW (some cs)).expansion_coefficients
          = cs :=
  ⟨rfl, rfl, rfl, rfl, rfl, rfl⟩
